import Mathlib

/-
A verification development for the MaidSafe routing core
(include/maidsafe/routing/routing_node.h and src/maidsafe/routing/routing_table.h).

The engine of RoutingNode is shallowly embedded as pure Lean functions over an
explicit node state.  Machine integers are modelled as Nat with explicit
reduction modulo 2^32 where the C++ type is a 32-bit unsigned integer.  The
connection manager, an external collaborator of the routing core, is modelled
as a record of its interface functions; the routing core is parametric in it,
exactly as the core only ever calls through that interface.
-/

namespace MaidRouting

/-- Node / data identifier (Address, NodeId, Identity in the sources). -/
abbrev Address := Nat

/-- A UDP endpoint, opaque to the routing core. -/
abbrev Endpoint := Nat

/-- EndpointPair: the (internal, public) endpoint pair advertised in handshakes. -/
abbrev EndpointPair := Endpoint × Endpoint

/-- Opaque payload bytes (SerialisedMessage contents). -/
abbrev Payload := Nat

/-- A public key / fob (passport::PublicPmid), opaque to the routing core. -/
abbrev PublicFob := Nat

/-- Duplicate-filter key: the pair (origin identifier, message id). -/
abbrev FilterKey := Address × Nat

/-- CloseGroupDifference: the (added, removed) delta between close-group snapshots. -/
abbrev CloseGroupDifference := List Address × List Address

/-- Authority roles, from the Authority enumeration used by routing_node.h. -/
inductive Authority where
  | client
  | node
  | client_manager
  | nae_manager
  | node_manager
  | managed_node
deriving DecidableEq, Repr

/-- MessageTypeTag: the wire tag written between the header and the body. -/
inductive MessageTypeTag where
  | Connect
  | ConnectResponse
  | FindGroup
  | FindGroupResponse
  | GetData
  | GetDataResponse
  | PutData
  | PutDataResponse
  | Post
  | PostResponse
deriving DecidableEq, Repr

/-- SourceAddress: (node address, optional group address, optional reply-to
address).  Modelled from the spec: message_header.h is not among the given
sources; the spec (section 3) gives the source triple as the sender node
address, an optional group address when the sender speaks for a group, and an
optional reply-to address for relayed client messages. -/
structure SourceAddress where
  nodeAddress : Address
  groupAddress : Option Address
  replyToAddress : Option Address
deriving DecidableEq, Repr

/-- MessageHeader.  Modelled from the spec: message_header.h is not among the
given sources; the fields follow the spec (section 3): a destination pair
(target, optional explicit reply-to), the source address triple, a 32-bit
message id and the claimed authority.  The signature field is irrelevant to
the properties below and omitted. -/
structure MessageHeader where
  destination : Address
  destReplyTo : Option Address
  source : SourceAddress
  messageId : Nat
  authority : Authority
deriving DecidableEq, Repr

/-- Modelled from the spec: header.FilterValue() is the filter key, the pair
(origin identifier, message id) (spec section 3). -/
def MessageHeader.FilterValue (h : MessageHeader) : FilterKey :=
  (h.source.nodeAddress, h.messageId)

/-- Modelled from the spec: header.FromNode() is the sender node address. -/
def MessageHeader.FromNode (h : MessageHeader) : Address :=
  h.source.nodeAddress

/-- Modelled from the spec: header.FromGroup() is the optional group address. -/
def MessageHeader.FromGroup (h : MessageHeader) : Option Address :=
  h.source.groupAddress

/-- Modelled from the spec: header.ReplyToAddress() is the optional reply-to
address of a relayed client message; header.RelayedMessage() is its presence. -/
def MessageHeader.ReplyToAddress (h : MessageHeader) : Option Address :=
  h.source.replyToAddress

/-- Connect message body (messages/connect.h, modelled from its uses in
routing_node.h: requester endpoints, requester id, receiver id, requester fob). -/
structure Connect where
  requesterEndpoints : EndpointPair
  requesterId : Address
  receiverId : Address
  requesterFob : PublicFob
deriving DecidableEq, Repr

/-- ConnectResponse message body (modelled from its uses in routing_node.h). -/
structure ConnectResponse where
  requesterEndpoints : EndpointPair
  receiverEndpoints : EndpointPair
  requesterId : Address
  receiverId : Address
  receiverFob : PublicFob
deriving DecidableEq, Repr

/-- FindGroup message body: FindGroup(NodeAddress(OurId()), OurId()) in the
source; the spec (section 4.G) writes it FindGroup(target = self.id). -/
structure FindGroup where
  targetId : Address
  requesterId : Address
deriving DecidableEq, Repr

/-- FindGroupResponse message body (modelled from its uses in routing_node.h). -/
structure FindGroupResponse where
  targetId : Address
  group : List PublicFob
deriving DecidableEq, Repr

/-- GetData message body: GetData(tag, name, relay source address) in the source. -/
structure GetData where
  name : Address
  relay : SourceAddress
deriving DecidableEq, Repr

/-- GetDataResponse message body: carries the data name and optionally the data. -/
structure GetDataResponse where
  name : Address
  data : Option Payload
deriving DecidableEq, Repr

/-- The typed body carried after the tag on the wire. -/
inductive MessageBody where
  | connect (c : Connect)
  | connectResponse (c : ConnectResponse)
  | findGroup (f : FindGroup)
  | findGroupResponse (f : FindGroupResponse)
  | getData (g : GetData)
  | getDataResponse (g : GetDataResponse)
  | putData
  | putDataResponse
  | post
deriving DecidableEq, Repr

/-- A parsed wire message: header, tag, body.  The tag travels separately from
the body on the wire (Serialise(header, tag, body)), so a message whose tag
does not match its body shape is representable. -/
structure WireMessage where
  header : MessageHeader
  tag : MessageTypeTag
  body : MessageBody
deriving DecidableEq, Repr

/-- A send issued through the connection manager: recipient plus the
serialised triple. -/
structure SentMessage where
  sentTo : Address
  header : MessageHeader
  tag : MessageTypeTag
  body : MessageBody
deriving DecidableEq, Repr

/-- The connection manager, an external collaborator (spec sections 1 and 6).
The routing core only calls through this interface, so it is modelled as a
record of the interface functions routing_node.h uses. -/
structure ConnMgr where
  getTarget : Address → List Address
  nonRoutingNodes : List Address
  inCloseGroupRange : Address → Bool
  suggestNodeToAdd : Address → Bool

/-- NodeInfo as used by the handshake handlers: id, fob, connected flag. -/
structure NodeInfo where
  id : Address
  dhtFob : PublicFob
  connected : Bool
deriving DecidableEq, Repr

/-- A connection_manager_.AddNode call issued by HandleMessage(ConnectResponse):
the NodeInfo and the endpoints dialled. -/
structure AddNodeCall where
  info : NodeInfo
  endpoints : EndpointPair
deriving DecidableEq, Repr

/-- A persisted bootstrap contact: identifier plus endpoint pair. -/
structure Contact where
  id : Address
  endpointPair : EndpointPair
deriving DecidableEq, Repr

/-- Outcome of one transport connect attempt during bootstrap: either an asio
error, or success reporting the observed remote address and our observed
endpoint. -/
inductive ConnectOutcome where
  | failure
  | success (addr : Address) (ourEndpoint : Endpoint)
deriving DecidableEq, Repr

/-- The mutable state of a RoutingNode that the embedded operations touch:
own id, the duplicate filter, the content cache, bootstrap_node_,
our_external_endpoint_ and message_id_. -/
structure RNState where
  ourId : Address
  filter : List FilterKey
  cache : List (Address × Payload)
  bootstrapNode : Option Address
  ourExternalEndpoint : Option Endpoint
  messageId : Nat
deriving DecidableEq, Repr

/-- The observable outcome of one MessageReceived call: the updated state, the
peers the original bytes were forwarded to, the non-routing peer the bytes
were relayed to (if any), and the tag dispatched to a local handler (if any). -/
structure RecvResult where
  state : RNState
  forwards : List Address
  relay : Option Address
  dispatched : Option MessageTypeTag
deriving DecidableEq, Repr

/-- LruCache.Add on the content cache: insert, replacing any entry of the key. -/
def cacheAdd (c : List (Address × Payload)) (k : Address) (v : Payload) :
    List (Address × Payload) :=
  (k, v) :: c.filter (fun kv => kv.1 ≠ k)

/-- Cache-maintenance step of MessageReceived (routing_node.h lines 304-309):
if the tag is GetDataResponse and the body carries data, add (name, payload)
to the cache; otherwise leave the cache alone. -/
def cacheStage (s : RNState) (msg : WireMessage) : RNState :=
  match msg.tag, msg.body with
  | MessageTypeTag.GetDataResponse, MessageBody.getDataResponse g =>
    match g.data with
    | some payload => { s with cache := cacheAdd s.cache g.name payload }
    | none => s
  | _, _ => s

/-- Relay test of MessageReceived (routing_node.h lines 339-346):
header.RelayedMessage() and the reply-to address is among the connected
non-routing nodes. -/
def relayHit (cm : ConnMgr) (h : MessageHeader) : Bool :=
  match h.ReplyToAddress with
  | some r => cm.nonRoutingNodes.contains r
  | none => false

/-- Local-dispatch decision of MessageReceived (routing_node.h lines 348-392):
nothing is dispatched when the destination is outside our close-group range;
Connect and ConnectResponse are additionally dropped unless the destination is
exactly our id; the switch dispatches the remaining handled tags
(the GetDataResponse arm of the switch is commented out in the source, and
PutDataResponse / PostResponse fall into the default arm), so those dispatch
nothing. -/
def localDispatchTag (ourId : Address) (cm : ConnMgr) (h : MessageHeader)
    (tag : MessageTypeTag) : Option MessageTypeTag :=
  if ¬ cm.inCloseGroupRange h.destination then none
  else if (tag = MessageTypeTag.Connect ∨ tag = MessageTypeTag.ConnectResponse) ∧
      h.destination ≠ ourId then none
  else
    match tag with
    | MessageTypeTag.Connect => some MessageTypeTag.Connect
    | MessageTypeTag.ConnectResponse => some MessageTypeTag.ConnectResponse
    | MessageTypeTag.FindGroup => some MessageTypeTag.FindGroup
    | MessageTypeTag.FindGroupResponse => some MessageTypeTag.FindGroupResponse
    | MessageTypeTag.GetData => some MessageTypeTag.GetData
    | MessageTypeTag.GetDataResponse => none
    | MessageTypeTag.PutData => some MessageTypeTag.PutData
    | MessageTypeTag.Post => some MessageTypeTag.Post
    | _ => none

/-- RoutingNode::MessageReceived (routing_node.h lines 286-393) on an already
parsed message.  Pipeline, in the order of the source: duplicate filter check
then insert; cache maintenance for GetDataResponse bodies carrying data;
forward the original bytes to connection_manager_.GetTarget(destination);
relay to a connected non-routing node when the header names one; drop unless
the destination is in our close-group range; drop direct-only tags addressed
to another node; otherwise dispatch by tag. -/
def MessageReceived (s : RNState) (cm : ConnMgr) (msg : WireMessage) : RecvResult :=
  if msg.header.FilterValue ∈ s.filter then
    { state := s, forwards := [], relay := none, dispatched := none }
  else if relayHit cm msg.header then
    { state := cacheStage { s with filter := msg.header.FilterValue :: s.filter } msg,
      forwards := cm.getTarget msg.header.destination,
      relay := msg.header.ReplyToAddress, dispatched := none }
  else
    { state := cacheStage { s with filter := msg.header.FilterValue :: s.filter } msg,
      forwards := cm.getTarget msg.header.destination,
      relay := none, dispatched := localDispatchTag s.ourId cm msg.header msg.tag }

/-- Run MessageReceived over a list of incoming datagrams and record the
filter key of every message that reached local dispatch. -/
def dispatchEvents (cm : ConnMgr) : RNState → List WireMessage → List FilterKey
  | _, [] => []
  | s, m :: ms =>
    match (MessageReceived s cm m).dispatched with
    | some _ =>
      m.header.FilterValue :: dispatchEvents cm (MessageReceived s cm m).state ms
    | none => dispatchEvents cm (MessageReceived s cm m).state ms

/-- The ++message_id_ step: message_id_ is a 32-bit unsigned integer, so the
pre-increment wraps modulo 2^32. -/
def nextMessageId (n : Nat) : Nat := (n + 1) % 4294967296

/-- RoutingNode::OurSourceAddress() (routing_node.h lines 562-568). -/
def OurSourceAddress (s : RNState) : SourceAddress :=
  match s.bootstrapNode with
  | some b =>
    { nodeAddress := b, groupAddress := none, replyToAddress := some s.ourId }
  | none =>
    { nodeAddress := s.ourId, groupAddress := none, replyToAddress := none }

/-- RoutingNode::ConnectToCloseGroup() (routing_node.h lines 260-283).  Builds
a FindGroup body for our own id and a header addressed to our own id with the
incremented message id.  With a bootstrap node set, the message is serialised
under the FindGroup tag and sent only to the bootstrap node.  Otherwise the
source serialises the same FindGroup body under MessageToTag of Connect
(line 276) and sends it to every target for our own id. -/
def ConnectToCloseGroup (s : RNState) (cm : ConnMgr) : RNState × List SentMessage :=
  let fg : FindGroup := { targetId := s.ourId, requesterId := s.ourId }
  let s' := { s with messageId := nextMessageId s.messageId }
  let header : MessageHeader :=
    { destination := s.ourId, destReplyTo := none, source := OurSourceAddress s,
      messageId := s'.messageId, authority := Authority.node }
  match s.bootstrapNode with
  | some b =>
    (s', [{ sentTo := b, header := header, tag := MessageTypeTag.FindGroup,
            body := MessageBody.findGroup fg }])
  | none =>
    (s', (cm.getTarget s.ourId).map (fun t =>
      { sentTo := t, header := header, tag := MessageTypeTag.Connect,
        body := MessageBody.findGroup fg }))

/-- RoutingNode::Get (routing_node.h lines 198-213): compose a GetData request
with the incremented message id and send it to every target for the name. -/
def GetOp (s : RNState) (cm : ConnMgr) (name : Address) : RNState × List SentMessage :=
  let s' := { s with messageId := nextMessageId s.messageId }
  let header : MessageHeader :=
    { destination := name, destReplyTo := none, source := OurSourceAddress s,
      messageId := s'.messageId, authority := Authority.node }
  let body := MessageBody.getData { name := name, relay := OurSourceAddress s }
  (s', (cm.getTarget name).map (fun t =>
    { sentTo := t, header := header, tag := MessageTypeTag.GetData, body := body }))

/-- The fourth condition of OurAuthority: header.FromGroup() is set and that
group address is in our close-group range. -/
def fromGroupInRange (cm : ConnMgr) (h : MessageHeader) : Bool :=
  match h.FromGroup with
  | some g => cm.inCloseGroupRange g
  | none => false

/-- RoutingNode::OurAuthority (routing_node.h lines 395-414), an if-else chain
ending in a thrown invalid_parameter error, modelled as Except. -/
def OurAuthority (s : RNState) (cm : ConnMgr) (element : Address)
    (h : MessageHeader) : Except Unit Authority :=
  if !h.FromGroup.isSome && cm.inCloseGroupRange h.FromNode &&
      (h.destination != element) then
    Except.ok Authority.client_manager
  else if cm.inCloseGroupRange element && (h.destination == element) then
    Except.ok Authority.nae_manager
  else if h.FromGroup.isSome && cm.inCloseGroupRange h.destination &&
      (h.destination != s.ourId) then
    Except.ok Authority.node_manager
  else if fromGroupInRange cm h && (h.destination == s.ourId) then
    Except.ok Authority.managed_node
  else
    Except.error ()

/-- The authority table exactly as the claim words it, read first-match:
client_manager when the header is not from a group, the sender is in our
close-group range and the destination differs from the element; nae_manager
when the element is in our close-group range and the destination equals the
element; node_manager when the header is from a group, the destination is in
our close-group range and the destination differs from self; managed_node
when the header is from a group, that group is in our close-group range and
the destination equals self; otherwise the InvalidAuthority error. -/
def OurAuthoritySpec (s : RNState) (cm : ConnMgr) (element : Address)
    (h : MessageHeader) : Except Unit Authority :=
  match h.FromGroup with
  | none =>
    if cm.inCloseGroupRange h.FromNode && (h.destination != element) then
      Except.ok Authority.client_manager
    else if cm.inCloseGroupRange element && (h.destination == element) then
      Except.ok Authority.nae_manager
    else
      Except.error ()
  | some g =>
    if cm.inCloseGroupRange element && (h.destination == element) then
      Except.ok Authority.nae_manager
    else if cm.inCloseGroupRange h.destination && (h.destination != s.ourId) then
      Except.ok Authority.node_manager
    else if cm.inCloseGroupRange g && (h.destination == s.ourId) then
      Except.ok Authority.managed_node
    else
      Except.error ()

/-- Modelled from the spec: QuorumSize lives in types.h, which is not among
the given sources; the spec fixes the quorum at K = kGroupSize, nominally 8. -/
def QuorumSize : Nat := 8

/-- RoutingNode::HandleMessage(ConnectResponse) (routing_node.h lines 457-491).
If SuggestNodeToAdd rejects the requester id, nothing happens.  Otherwise the
node issues connection_manager_.AddNode with NodeInfo(requester id, receiver
fob, connected) and the receiver endpoints; the completion callback receives
the optional CloseGroupDifference (forwarded to HandleChurn) and, when the
table size has reached QuorumSize, clears bootstrap_node_.  The post-add table
size observed in the callback is passed in as postAddSize. -/
def HandleConnectResponse (s : RNState) (cm : ConnMgr) (cr : ConnectResponse)
    (added : Option CloseGroupDifference) (postAddSize : Nat) :
    RNState × Option AddNodeCall × Option CloseGroupDifference :=
  if cm.suggestNodeToAdd cr.requesterId then
    let call : AddNodeCall :=
      { info := { id := cr.requesterId, dhtFob := cr.receiverFob, connected := true },
        endpoints := cr.receiverEndpoints }
    let s' := if QuorumSize ≤ postAddSize then { s with bootstrapNode := none } else s
    (s', some call, added)
  else
    (s, none, none)

/-- One bootstrap connect callback (routing_node.h lines 177-191): on a
transport error, or when the observed remote address differs from the
contact's id, the attempt is abandoned; otherwise bootstrap_node_ and
our_external_endpoint_ are set and ConnectToCloseGroup runs. -/
def OnBootstrapConnect (cm : ConnMgr) (c : Contact) (out : ConnectOutcome)
    (s : RNState) : RNState × List SentMessage :=
  match out with
  | ConnectOutcome.failure => (s, [])
  | ConnectOutcome.success addr ep =>
    if addr = c.id then
      ConnectToCloseGroup
        { s with bootstrapNode := some c.id, ourExternalEndpoint := some ep } cm
    else
      (s, [])

/-- Run the bootstrap connect callbacks for a sequence of contacts with their
connect outcomes, accumulating every message sent. -/
def RunBootstrap (cm : ConnMgr) :
    RNState → List (Contact × ConnectOutcome) → RNState × List SentMessage
  | s, [] => (s, [])
  | s, (c, out) :: rest =>
    ((RunBootstrap cm (OnBootstrapConnect cm c out s).1 rest).1,
     (OnBootstrapConnect cm c out s).2 ++
       (RunBootstrap cm (OnBootstrapConnect cm c out s).1 rest).2)

/-- A worked connection-manager interface used in the concrete evaluations:
one routing target, every address in close-group range, every node accepted. -/
def exCm : ConnMgr :=
  { getTarget := fun _ => [2], nonRoutingNodes := [],
    inCloseGroupRange := fun _ => true, suggestNodeToAdd := fun _ => true }

/-- A node state whose filter already holds the key (1, 5). -/
def exState : RNState :=
  { ourId := 0, filter := [(1, 5)], cache := [], bootstrapNode := none,
    ourExternalEndpoint := none, messageId := 0 }

/-- A fresh node state with an empty filter. -/
def exState0 : RNState :=
  { ourId := 0, filter := [], cache := [], bootstrapNode := none,
    ourExternalEndpoint := none, messageId := 0 }

/-- A node state still holding a bootstrap node (id 9). -/
def exStateBoot : RNState :=
  { ourId := 0, filter := [], cache := [], bootstrapNode := some 9,
    ourExternalEndpoint := none, messageId := 0 }

/-- A header from node 1 with message id 5, addressed to node 3. -/
def exHeader : MessageHeader :=
  { destination := 3, destReplyTo := none,
    source := { nodeAddress := 1, groupAddress := none, replyToAddress := none },
    messageId := 5, authority := Authority.node }

/-- A Connect wire message addressed to node 3 (not our id). -/
def exMsgConnect : WireMessage :=
  { header := exHeader, tag := MessageTypeTag.Connect,
    body := MessageBody.connect
      { requesterEndpoints := (0, 0), requesterId := 1, receiverId := 3,
        requesterFob := 0 } }

/-- A Connect body naming our node (id 0) as receiver. -/
def exConnectBody : Connect :=
  { requesterEndpoints := (0, 0), requesterId := 1, receiverId := 0,
    requesterFob := 0 }

/-- A header from node 1 with message id 5, addressed to our node (id 0). -/
def exHeaderSelf : MessageHeader :=
  { destination := 0, destReplyTo := none,
    source := { nodeAddress := 1, groupAddress := none, replyToAddress := none },
    messageId := 5, authority := Authority.node }

/-- A Connect wire message addressed to our node (id 0). -/
def exMsgConnectSelf : WireMessage :=
  { header := exHeaderSelf, tag := MessageTypeTag.Connect,
    body := MessageBody.connect exConnectBody }

/-- A GetData wire message addressed to our node (id 0), origin key (1, 5). -/
def exMsgGet : WireMessage :=
  { header := exHeaderSelf, tag := MessageTypeTag.GetData,
    body := MessageBody.getData
      { name := 0,
        relay := { nodeAddress := 1, groupAddress := none, replyToAddress := none } } }

/-- The header a bootstrapping node (exStateBoot) composes for its FindGroup:
destination self (0), source naming the bootstrap peer 9 with reply-to self,
the incremented message id 1. -/
def exHeaderViaBoot : MessageHeader :=
  { destination := 0, destReplyTo := none,
    source := { nodeAddress := 9, groupAddress := none, replyToAddress := some 0 },
    messageId := 1, authority := Authority.node }

/-- A node state at message id 2^32 - 2, the largest id from which two more
messages can still be issued before the 32-bit counter wraps. -/
def exState8 : RNState :=
  { ourId := 0, filter := [], cache := [], bootstrapNode := none,
    ourExternalEndpoint := none, messageId := 4294967294 }

/-- A node state at message id 10. -/
def exState10 : RNState :=
  { ourId := 0, filter := [], cache := [], bootstrapNode := none,
    ourExternalEndpoint := none, messageId := 10 }

/-- The cache-maintenance step never touches the duplicate filter. -/
theorem cacheStage_filter (s : RNState) (m : WireMessage) :
    (cacheStage s m).filter = s.filter := by
  unfold cacheStage
  split
  · split <;> rfl
  · rfl

/-- The cache-maintenance step never touches the remaining node state. -/
theorem cacheStage_bootstrapNode (s : RNState) (m : WireMessage) :
    (cacheStage s m).bootstrapNode = s.bootstrapNode := by
  unfold cacheStage
  split
  · split <;> rfl
  · rfl

/-- A GetDataResponse carrying data updates the cache with (name, payload). -/
theorem cacheStage_cache_data (s : RNState) (h : MessageHeader) (g : GetDataResponse)
    (p : Payload) (hdata : g.data = some p) :
    (cacheStage s ⟨h, MessageTypeTag.GetDataResponse, MessageBody.getDataResponse g⟩).cache =
      cacheAdd s.cache g.name p := by
  unfold cacheStage
  simp [hdata]

/-- A GetDataResponse without data leaves the cache alone. -/
theorem cacheStage_cache_nodata (s : RNState) (h : MessageHeader) (g : GetDataResponse)
    (hdata : g.data = none) :
    (cacheStage s ⟨h, MessageTypeTag.GetDataResponse, MessageBody.getDataResponse g⟩).cache =
      s.cache := by
  unfold cacheStage
  simp [hdata]

/-- Any tag other than GetDataResponse leaves the cache alone. -/
theorem cacheStage_cache_other (s : RNState) (m : WireMessage)
    (hm : m.tag ≠ MessageTypeTag.GetDataResponse) :
    (cacheStage s m).cache = s.cache := by
  unfold cacheStage
  split
  next heq1 heq2 => exact absurd heq1 hm
  next => rfl

/-- A message whose filter key is already present is a complete no-op. -/
theorem MessageReceived_dup (s : RNState) (cm : ConnMgr) (m : WireMessage)
    (hmem : m.header.FilterValue ∈ s.filter) :
    MessageReceived s cm m =
      { state := s, forwards := [], relay := none, dispatched := none } := by
  unfold MessageReceived
  rw [if_pos hmem]

/-- A first reception inserts the filter key before any further processing. -/
theorem MessageReceived_filter_insert (s : RNState) (cm : ConnMgr) (m : WireMessage)
    (hmem : m.header.FilterValue ∉ s.filter) :
    (MessageReceived s cm m).state.filter = m.header.FilterValue :: s.filter := by
  unfold MessageReceived
  rw [if_neg hmem]
  split <;> simp [cacheStage_filter]

/-- The filter only grows across MessageReceived. -/
theorem MessageReceived_filter_mono (s : RNState) (cm : ConnMgr) (m : WireMessage)
    (k : FilterKey) (hk : k ∈ s.filter) :
    k ∈ (MessageReceived s cm m).state.filter := by
  by_cases hmem : m.header.FilterValue ∈ s.filter
  · rw [MessageReceived_dup s cm m hmem]
    exact hk
  · rw [MessageReceived_filter_insert s cm m hmem]
    exact List.mem_cons_of_mem _ hk

/-- After any MessageReceived the message's own filter key is in the filter. -/
theorem MessageReceived_filter_self (s : RNState) (cm : ConnMgr) (m : WireMessage) :
    m.header.FilterValue ∈ (MessageReceived s cm m).state.filter := by
  by_cases hmem : m.header.FilterValue ∈ s.filter
  · rw [MessageReceived_dup s cm m hmem]
    exact hmem
  · rw [MessageReceived_filter_insert s cm m hmem]
    exact List.mem_cons_self _ _

/-- A locally dispatched message cannot have been in the filter. -/
theorem MessageReceived_dispatched_not_mem (s : RNState) (cm : ConnMgr)
    (m : WireMessage) (t : MessageTypeTag)
    (hd : (MessageReceived s cm m).dispatched = some t) :
    m.header.FilterValue ∉ s.filter := by
  intro hmem
  rw [MessageReceived_dup s cm m hmem] at hd
  exact Option.noConfusion hd

/-- Local dispatch is decided by localDispatchTag on the header and tag. -/
theorem MessageReceived_dispatch_eq (s : RNState) (cm : ConnMgr) (m : WireMessage)
    (t : MessageTypeTag) (hd : (MessageReceived s cm m).dispatched = some t) :
    localDispatchTag s.ourId cm m.header m.tag = some t := by
  unfold MessageReceived at hd
  by_cases hmem : m.header.FilterValue ∈ s.filter
  · rw [if_pos hmem] at hd
    exact absurd hd (by simp)
  · rw [if_neg hmem] at hd
    by_cases hrel : relayHit cm m.header
    · rw [if_pos hrel] at hd
      exact absurd hd (by simp)
    · rw [if_neg hrel] at hd
      exact hd

/-- A key that is already in the filter is never dispatched again. -/
theorem dispatchEvents_not_mem (cm : ConnMgr) (k : FilterKey) :
    ∀ (ms : List WireMessage) (s : RNState), k ∈ s.filter →
      k ∉ dispatchEvents cm s ms := by
  intro ms
  induction ms with
  | nil =>
    intro s _
    simp [dispatchEvents]
  | cons m ms ih =>
    intro s hk
    unfold dispatchEvents
    cases hd : (MessageReceived s cm m).dispatched with
    | none =>
      exact ih _ (MessageReceived_filter_mono s cm m k hk)
    | some t =>
      intro hmem
      rcases List.mem_cons.mp hmem with heq | htail
      · exact MessageReceived_dispatched_not_mem s cm m t hd (heq ▸ hk)
      · exact ih _ (MessageReceived_filter_mono s cm m k hk) htail

/-- Each filter key is locally dispatched at most once along any receive run. -/
theorem dispatchEvents_count_le_one (cm : ConnMgr) (k : FilterKey) :
    ∀ (ms : List WireMessage) (s : RNState),
      (dispatchEvents cm s ms).count k ≤ 1 := by
  intro ms
  induction ms with
  | nil =>
    intro s
    simp [dispatchEvents]
  | cons m ms ih =>
    intro s
    unfold dispatchEvents
    cases hd : (MessageReceived s cm m).dispatched with
    | none => exact ih _
    | some t =>
      have hself : m.header.FilterValue ∈ (MessageReceived s cm m).state.filter :=
        MessageReceived_filter_self s cm m
      have hzero : m.header.FilterValue ∉
          dispatchEvents cm (MessageReceived s cm m).state ms :=
        dispatchEvents_not_mem cm _ ms _ hself
      by_cases hkeq : k = m.header.FilterValue
      · rw [hkeq, List.count_cons_self]
        have hc : (dispatchEvents cm (MessageReceived s cm m).state ms).count
            m.header.FilterValue = 0 :=
          List.count_eq_zero.mpr hzero
        omega
      · rw [List.count_cons_of_ne hkeq]
        exact ih _

/-- Direct-only tags addressed to another node are never dispatched. -/
theorem localDispatchTag_direct_none (ourId : Address) (cm : ConnMgr)
    (h : MessageHeader) (tag : MessageTypeTag)
    (htag : tag = MessageTypeTag.Connect ∨ tag = MessageTypeTag.ConnectResponse)
    (hdest : h.destination ≠ ourId) :
    localDispatchTag ourId cm h tag = none := by
  unfold localDispatchTag
  by_cases hr : cm.inCloseGroupRange h.destination = true
  · rw [if_neg (not_not.mpr hr), if_pos ⟨htag, hdest⟩]
  · rw [if_pos hr]

/-- A dispatched Connect tag forces the destination to be our own id. -/
theorem localDispatchTag_connect_dest (ourId : Address) (cm : ConnMgr)
    (h : MessageHeader) (tag : MessageTypeTag)
    (hd : localDispatchTag ourId cm h tag = some MessageTypeTag.Connect) :
    h.destination = ourId := by
  unfold localDispatchTag at hd
  by_cases hr : cm.inCloseGroupRange h.destination = true
  · rw [if_neg (not_not.mpr hr)] at hd
    by_cases hc : (tag = MessageTypeTag.Connect ∨ tag = MessageTypeTag.ConnectResponse) ∧
        h.destination ≠ ourId
    · rw [if_pos hc] at hd
      exact Option.noConfusion hd
    · rw [if_neg hc] at hd
      by_cases hdq : h.destination = ourId
      · exact hdq
      · cases tag <;> simp_all
  · rw [if_pos hr] at hd
    exact Option.noConfusion hd

/-- C1: a datagram whose filter key (origin, message id) is already in the
duplicate filter is discarded with no cache update, no forwarding, no relay
and no local dispatch; a first reception inserts the key before any further
processing, so a fixed (origin, message id) pair triggers local dispatch at
most once per node along any receive run. -/
theorem c1_duplicate_suppression (s : RNState) (cm : ConnMgr) (m : WireMessage)
    (ms : List WireMessage) (k : FilterKey) :
    (m.header.FilterValue ∈ s.filter →
      MessageReceived s cm m =
        { state := s, forwards := [], relay := none, dispatched := none }) ∧
    (m.header.FilterValue ∉ s.filter →
      (MessageReceived s cm m).state.filter = m.header.FilterValue :: s.filter) ∧
    (dispatchEvents cm s ms).count k ≤ 1 :=
  ⟨MessageReceived_dup s cm m, MessageReceived_filter_insert s cm m,
   dispatchEvents_count_le_one cm k ms s⟩

/-- C1 witness: the duplicate (1, 5) is dropped as a no-op, a fresh key is
inserted, and the same GetData delivered twice is dispatched at most once. -/
theorem c1_duplicate_suppression_witness :
    (MessageReceived exState exCm exMsgGet =
      { state := exState, forwards := [], relay := none, dispatched := none }) ∧
    ((MessageReceived exState0 exCm exMsgGet).state.filter =
      exMsgGet.header.FilterValue :: exState0.filter) ∧
    (dispatchEvents exCm exState0 [exMsgGet, exMsgGet]).count (1, 5) ≤ 1 :=
  ⟨(c1_duplicate_suppression exState exCm exMsgGet [] (1, 5)).1
     (by simp [exMsgGet, exHeaderSelf, exState, MessageHeader.FilterValue]),
   (c1_duplicate_suppression exState0 exCm exMsgGet [] (1, 5)).2.1
     (by simp [exState0]),
   (c1_duplicate_suppression exState0 exCm exMsgGet [exMsgGet, exMsgGet] (1, 5)).2.2⟩

/-- C3 counterexample: a Connect addressed to another node whose filter key is
already in the duplicate filter is not forwarded at all, although the routing
table offers a target, so the claim as stated (every such received message is
forwarded to the routing targets) fails on this input. -/
theorem c3_direct_only_counterexample :
    exMsgConnect.tag = MessageTypeTag.Connect ∧
    exMsgConnect.header.destination ≠ exState.ourId ∧
    exCm.getTarget exMsgConnect.header.destination = [2] ∧
    (MessageReceived exState exCm exMsgConnect).forwards = [] := by
  refine ⟨rfl, by decide, rfl, ?_⟩
  rw [MessageReceived_dup exState exCm exMsgConnect
    (by simp [exMsgConnect, exHeader, exState, MessageHeader.FilterValue])]

/-- C3 (amended): a received Connect or ConnectResponse whose header
destination differs from our id is never dispatched locally, and — provided
it is not suppressed by the duplicate filter — the original bytes are
forwarded to the routing targets of the destination. -/
theorem c3_direct_only_drop (s : RNState) (cm : ConnMgr) (m : WireMessage)
    (htag : m.tag = MessageTypeTag.Connect ∨ m.tag = MessageTypeTag.ConnectResponse)
    (hdest : m.header.destination ≠ s.ourId) :
    (m.header.FilterValue ∉ s.filter →
      (MessageReceived s cm m).forwards = cm.getTarget m.header.destination) ∧
    (MessageReceived s cm m).dispatched = none := by
  constructor
  · intro hmem
    unfold MessageReceived
    rw [if_neg hmem]
    split <;> rfl
  · by_cases hmem : m.header.FilterValue ∈ s.filter
    · rw [MessageReceived_dup s cm m hmem]
    · unfold MessageReceived
      rw [if_neg hmem]
      by_cases hrel : relayHit cm m.header = true
      · rw [if_pos hrel]
      · rw [if_neg hrel]
        exact localDispatchTag_direct_none s.ourId cm m.header m.tag htag hdest

/-- C3 witness: a fresh Connect addressed to node 3 (our id is 0) is forwarded
to the routing target 2 and dispatched nowhere. -/
theorem c3_direct_only_drop_witness :
    ((MessageReceived exState0 exCm exMsgConnect).forwards =
      exCm.getTarget exMsgConnect.header.destination) ∧
    (MessageReceived exState0 exCm exMsgConnect).dispatched = none :=
  ⟨(c3_direct_only_drop exState0 exCm exMsgConnect (Or.inl rfl) (by decide)).1
     (by simp [exState0]),
   (c3_direct_only_drop exState0 exCm exMsgConnect (Or.inl rfl) (by decide)).2⟩

/-- C2: the ConnectToCloseGroup multicast branch.  With bootstrap_node set the
serialised FindGroup goes only to the bootstrap peer under the FindGroup tag;
once bootstrap_node is cleared, the source serialises the same FindGroup body
under the Connect tag (routing_node.h line 276,
MessageToTag of Connect), so what is multicast to the targets of our own id
is not a FindGroup-tagged message as the claim states. -/
theorem c2_multicast_tag_mismatch :
    ((ConnectToCloseGroup exStateBoot exCm).2 =
      [{ sentTo := 9, header := exHeaderViaBoot, tag := MessageTypeTag.FindGroup,
         body := MessageBody.findGroup { targetId := 0, requesterId := 0 } }]) ∧
    ((ConnectToCloseGroup exState0 exCm).2.map SentMessage.sentTo =
      exCm.getTarget exState0.ourId) ∧
    ((ConnectToCloseGroup exState0 exCm).2.map SentMessage.tag =
      [MessageTypeTag.Connect]) ∧
    ((ConnectToCloseGroup exState0 exCm).2.map SentMessage.body =
      [MessageBody.findGroup { targetId := 0, requesterId := 0 }]) ∧
    MessageTypeTag.Connect ≠ MessageTypeTag.FindGroup := by
  refine ⟨rfl, rfl, rfl, rfl, by decide⟩

/-- C4: OurAuthority agrees everywhere with the authority table exactly as the
claim words it (first match wins, InvalidAuthority otherwise); it is a pure
function of the close-group-range snapshot, our id and the header. -/
theorem c4_our_authority (s : RNState) (cm : ConnMgr) (element : Address)
    (h : MessageHeader) :
    OurAuthority s cm element h = OurAuthoritySpec s cm element h := by
  unfold OurAuthority OurAuthoritySpec fromGroupInRange MessageHeader.FromGroup
    MessageHeader.FromNode
  cases hg : h.source.groupAddress with
  | none => simp
  | some g => simp

/-- C5: on a ConnectResponse that SuggestNodeToAdd accepts, the node issues
AddNode dialling the responder's endpoints, and bootstrap_node is cleared
exactly when the post-add routing-table size has reached QuorumSize; below
QuorumSize it is left as it was. -/
theorem c5_connect_response (s : RNState) (cm : ConnMgr) (cr : ConnectResponse)
    (added : Option CloseGroupDifference) (postAddSize : Nat)
    (hacc : cm.suggestNodeToAdd cr.requesterId = true) :
    ((HandleConnectResponse s cm cr added postAddSize).2.1 =
      some { info := { id := cr.requesterId, dhtFob := cr.receiverFob, connected := true },
             endpoints := cr.receiverEndpoints }) ∧
    ((HandleConnectResponse s cm cr added postAddSize).1.bootstrapNode =
      if QuorumSize ≤ postAddSize then none else s.bootstrapNode) := by
  unfold HandleConnectResponse
  rw [if_pos hacc]
  refine ⟨rfl, ?_⟩
  by_cases hq : QuorumSize ≤ postAddSize
  · rw [if_pos hq, if_pos hq]
  · rw [if_neg hq, if_neg hq]

/-- C5 witness: with the table reaching size 8 = QuorumSize the bootstrap node
is cleared and the responder (receiver endpoints (4, 5)) is dialled. -/
theorem c5_connect_response_witness :
    ((HandleConnectResponse exStateBoot exCm
        { requesterEndpoints := (0, 0), receiverEndpoints := (4, 5),
          requesterId := 7, receiverId := 8, receiverFob := 3 } none 8).2.1 =
      some { info := { id := 7, dhtFob := 3, connected := true },
             endpoints := (4, 5) }) ∧
    ((HandleConnectResponse exStateBoot exCm
        { requesterEndpoints := (0, 0), receiverEndpoints := (4, 5),
          requesterId := 7, receiverId := 8, receiverFob := 3 } none 8).1.bootstrapNode =
      if QuorumSize ≤ 8 then none else exStateBoot.bootstrapNode) :=
  c5_connect_response exStateBoot exCm
    { requesterEndpoints := (0, 0), receiverEndpoints := (4, 5),
      requesterId := 7, receiverId := 8, receiverFob := 3 } none 8 rfl

/-- C6: for a non-duplicate message, a GetDataResponse carrying data inserts
(name, payload) into the cache at the cache-maintenance step (which precedes
forwarding in the pipeline), while any other tag, and a GetDataResponse
without data, leave the cache unchanged. -/
theorem c6_cache_maintenance (s : RNState) (cm : ConnMgr) (m : WireMessage)
    (hmem : m.header.FilterValue ∉ s.filter) :
    (∀ g p, m.tag = MessageTypeTag.GetDataResponse →
      m.body = MessageBody.getDataResponse g → g.data = some p →
      (MessageReceived s cm m).state.cache = cacheAdd s.cache g.name p) ∧
    (∀ g, m.tag = MessageTypeTag.GetDataResponse →
      m.body = MessageBody.getDataResponse g → g.data = none →
      (MessageReceived s cm m).state.cache = s.cache) ∧
    (m.tag ≠ MessageTypeTag.GetDataResponse →
      (MessageReceived s cm m).state.cache = s.cache) := by
  have hbase : (MessageReceived s cm m).state.cache =
      (cacheStage { s with filter := m.header.FilterValue :: s.filter } m).cache := by
    unfold MessageReceived
    rw [if_neg hmem]
    split <;> rfl
  refine ⟨?_, ?_, ?_⟩
  · intro g p htag hbody hdata
    rcases m with ⟨mh, mtag, mbody⟩
    cases htag
    cases hbody
    rw [hbase, cacheStage_cache_data _ _ _ _ hdata]
  · intro g htag hbody hdata
    rcases m with ⟨mh, mtag, mbody⟩
    cases htag
    cases hbody
    rw [hbase, cacheStage_cache_nodata _ _ _ hdata]
  · intro htag
    rw [hbase, cacheStage_cache_other _ _ htag]

/-- C6 witness: a fresh GetDataResponse with payload 11 for name 4 is cached;
the fresh GetData of exMsgGet leaves the cache unchanged. -/
theorem c6_cache_maintenance_witness :
    ((MessageReceived exState0 exCm
        { header := exHeaderSelf, tag := MessageTypeTag.GetDataResponse,
          body := MessageBody.getDataResponse { name := 4, data := some 11 } }).state.cache =
      cacheAdd exState0.cache 4 11) ∧
    (MessageReceived exState0 exCm exMsgGet).state.cache = exState0.cache :=
  ⟨(c6_cache_maintenance exState0 exCm
      { header := exHeaderSelf, tag := MessageTypeTag.GetDataResponse,
        body := MessageBody.getDataResponse { name := 4, data := some 11 } }
      (by simp [exState0])).1 { name := 4, data := some 11 } 11 rfl rfl rfl,
   (c6_cache_maintenance exState0 exCm exMsgGet (by simp [exState0])).2.2
     (by decide)⟩

/-- C7: during bootstrap, a connect attempt that fails or reports a remote id
different from the contact's expected id is abandoned with the node state
untouched and nothing sent; removing such an attempt from a bootstrap run
changes nothing for the remaining contacts; only a successful connect with
matching id sets bootstrap_node and our_external_endpoint and invokes
ConnectToCloseGroup. -/
theorem c7_bootstrap_attempts (cm : ConnMgr) (c : Contact) (s : RNState)
    (a : Address) (e : Endpoint) (hne : a ≠ c.id) :
    (OnBootstrapConnect cm c ConnectOutcome.failure s = (s, [])) ∧
    (OnBootstrapConnect cm c (ConnectOutcome.success a e) s = (s, [])) ∧
    (OnBootstrapConnect cm c (ConnectOutcome.success c.id e) s =
      ConnectToCloseGroup
        { s with bootstrapNode := some c.id, ourExternalEndpoint := some e } cm) ∧
    (∀ xs ys, RunBootstrap cm s (xs ++ (c, ConnectOutcome.failure) :: ys) =
      RunBootstrap cm s (xs ++ ys)) := by
  refine ⟨rfl, ?_, ?_, ?_⟩
  · simp [OnBootstrapConnect, hne]
  · simp [OnBootstrapConnect]
  · intro xs
    induction xs generalizing s with
    | nil =>
      intro ys
      simp [RunBootstrap, OnBootstrapConnect]
    | cons p xs ih =>
      intro ys
      rcases p with ⟨c2, out2⟩
      simp only [List.cons_append, RunBootstrap, List.append_eq]
      rw [ih]

/-- C7 witness: a failed attempt and an id-mismatched attempt for contact 9
leave the fresh node untouched; the matching success turns on the bootstrap
branch of ConnectToCloseGroup; dropping the failure from a two-entry run
leaves the run's outcome unchanged. -/
theorem c7_bootstrap_attempts_witness :
    (OnBootstrapConnect exCm { id := 9, endpointPair := (1, 2) }
      ConnectOutcome.failure exState0 = (exState0, [])) ∧
    (OnBootstrapConnect exCm { id := 9, endpointPair := (1, 2) }
      (ConnectOutcome.success 4 6) exState0 = (exState0, [])) ∧
    (OnBootstrapConnect exCm { id := 9, endpointPair := (1, 2) }
      (ConnectOutcome.success 9 6) exState0 =
      ConnectToCloseGroup
        { exState0 with bootstrapNode := some 9, ourExternalEndpoint := some 6 } exCm) ∧
    (RunBootstrap exCm exState0
        [({ id := 9, endpointPair := (1, 2) }, ConnectOutcome.failure),
         ({ id := 9, endpointPair := (1, 2) }, ConnectOutcome.success 9 6)] =
      RunBootstrap exCm exState0
        [({ id := 9, endpointPair := (1, 2) }, ConnectOutcome.success 9 6)]) := by
  have h := c7_bootstrap_attempts exCm { id := 9, endpointPair := (1, 2) } exState0
    4 6 (by decide)
  exact ⟨h.1, h.2.1, h.2.2.1,
    h.2.2.2 [] [({ id := 9, endpointPair := (1, 2) }, ConnectOutcome.success 9 6)]⟩

/-- C8 counterexample: starting from message id 2^32 - 2 (message_id_ is a
32-bit counter initialised from RandomUint32), two successive Get operations
issue ids 4294967295 and then 0: the second composed message does not carry an
id strictly greater than every id issued before it. -/
theorem c8_monotonic_counterexample :
    ((GetOp exState8 exCm 9).2.map (fun sm => sm.header.messageId) =
      [4294967295]) ∧
    ((GetOp (GetOp exState8 exCm 9).1 exCm 9).2.map
        (fun sm => sm.header.messageId) = [0]) ∧
    ¬ (4294967295 : Nat) < 0 :=
  ⟨rfl, rfl, by decide⟩

/-- C8 (amended): every message a node originates carries the pre-incremented
32-bit counter (previous + 1) mod 2^32; this is strictly greater than the
previous id except when the previous id is 2^32 - 1, where it wraps to 0. -/
theorem c8_message_id (s : RNState) (cm : ConnMgr) (name : Address)
    (hlt : s.messageId < 4294967296) :
    (∀ sm ∈ (GetOp s cm name).2, sm.header.messageId = nextMessageId s.messageId) ∧
    ((GetOp s cm name).1.messageId = nextMessageId s.messageId) ∧
    (∀ sm ∈ (ConnectToCloseGroup s cm).2,
      sm.header.messageId = nextMessageId s.messageId) ∧
    (s.messageId ≠ 4294967295 →
      nextMessageId s.messageId = s.messageId + 1 ∧
      s.messageId < nextMessageId s.messageId) ∧
    (s.messageId = 4294967295 → nextMessageId s.messageId = 0) := by
  refine ⟨?_, rfl, ?_, ?_, ?_⟩
  · intro sm hsm
    unfold GetOp at hsm
    rcases List.mem_map.mp hsm with ⟨t, _, rfl⟩
    rfl
  · intro sm hsm
    unfold ConnectToCloseGroup at hsm
    cases hb : s.bootstrapNode with
    | some b =>
      rw [hb] at hsm
      simp only [List.mem_singleton] at hsm
      rw [hsm]
    | none =>
      rw [hb] at hsm
      rcases List.mem_map.mp hsm with ⟨t, _, rfl⟩
      rfl
  · intro hne
    unfold nextMessageId
    omega
  · intro heq
    rw [heq]
    rfl

/-- C8 witness: at message id 10 the next Get carries id 11, strictly greater. -/
theorem c8_message_id_witness :
    (∀ sm ∈ (GetOp exState10 exCm 9).2,
      sm.header.messageId = nextMessageId exState10.messageId) ∧
    (nextMessageId exState10.messageId = exState10.messageId + 1 ∧
      exState10.messageId < nextMessageId exState10.messageId) :=
  ⟨(c8_message_id exState10 exCm 9 (by decide)).1,
   (c8_message_id exState10 exCm 9 (by decide)).2.2.2.1 (by decide)⟩

/-- C9: a Connect that MessageReceived dispatches locally has header
destination equal to our id (the direct-only drop ran before dispatch), so
under the precondition that the header destination equals the body's
receiver id, the assert receiver_id == OurId() in HandleMessage(Connect)
holds and its failure branch is unreachable. -/
theorem c9_connect_assert (s : RNState) (cm : ConnMgr) (m : WireMessage)
    (c : Connect)
    (hdisp : (MessageReceived s cm m).dispatched = some MessageTypeTag.Connect)
    (_hbody : m.body = MessageBody.connect c)
    (hpre : m.header.destination = c.receiverId) :
    c.receiverId = s.ourId ∧ m.header.destination = s.ourId := by
  have hdest : m.header.destination = s.ourId :=
    localDispatchTag_connect_dest s.ourId cm m.header m.tag
      (MessageReceived_dispatch_eq s cm m MessageTypeTag.Connect hdisp)
  exact ⟨hpre ▸ hdest, hdest⟩

/-- C9 witness: the Connect addressed to our node (id 0) is dispatched and its
receiver id is ours. -/
theorem c9_connect_assert_witness :
    ((MessageReceived exState0 exCm exMsgConnectSelf).dispatched =
      some MessageTypeTag.Connect) ∧
    exConnectBody.receiverId = exState0.ourId ∧
    exMsgConnectSelf.header.destination = exState0.ourId :=
  ⟨by decide,
   (c9_connect_assert exState0 exCm exMsgConnectSelf exConnectBody
     (by decide) rfl rfl).1,
   (c9_connect_assert exState0 exCm exMsgConnectSelf exConnectBody
     (by decide) rfl rfl).2⟩

/-- C10: OurSourceAddress names the bootstrap peer as source node address with
our own id in the reply-to field while bootstrap_node is set, and our own id
with no group and no reply-to once it is cleared; every originated message
(Get, ConnectToCloseGroup) carries exactly this source in its header. -/
theorem c10_our_source_address (s : RNState) (cm : ConnMgr) (name : Address) :
    (∀ b, s.bootstrapNode = some b →
      OurSourceAddress s =
        { nodeAddress := b, groupAddress := none, replyToAddress := some s.ourId }) ∧
    (s.bootstrapNode = none →
      OurSourceAddress s =
        { nodeAddress := s.ourId, groupAddress := none, replyToAddress := none }) ∧
    (∀ sm ∈ (GetOp s cm name).2, sm.header.source = OurSourceAddress s) ∧
    (∀ sm ∈ (ConnectToCloseGroup s cm).2, sm.header.source = OurSourceAddress s) := by
  refine ⟨?_, ?_, ?_, ?_⟩
  · intro b hb
    unfold OurSourceAddress
    rw [hb]
  · intro hb
    unfold OurSourceAddress
    rw [hb]
  · intro sm hsm
    unfold GetOp at hsm
    rcases List.mem_map.mp hsm with ⟨t, _, rfl⟩
    rfl
  · intro sm hsm
    unfold ConnectToCloseGroup at hsm
    cases hb : s.bootstrapNode with
    | some b =>
      rw [hb] at hsm
      simp only [List.mem_singleton] at hsm
      rw [hsm]
    | none =>
      rw [hb] at hsm
      rcases List.mem_map.mp hsm with ⟨t, _, rfl⟩
      rfl

/-- C10 witness: with bootstrap node 9, the source triple is (9, none, reply
to 0) and the FindGroup sent by ConnectToCloseGroup carries it; with the
bootstrap node cleared the source triple is (0, none, none). -/
theorem c10_our_source_address_witness :
    (OurSourceAddress exStateBoot =
      { nodeAddress := 9, groupAddress := none, replyToAddress := some 0 }) ∧
    (OurSourceAddress exState0 =
      { nodeAddress := 0, groupAddress := none, replyToAddress := none }) ∧
    (∀ sm ∈ (ConnectToCloseGroup exStateBoot exCm).2,
      sm.header.source = OurSourceAddress exStateBoot) :=
  ⟨(c10_our_source_address exStateBoot exCm 9).1 9 rfl,
   (c10_our_source_address exState0 exCm 9).2.1 rfl,
   (c10_our_source_address exStateBoot exCm 9).2.2.2⟩

end MaidRouting
